import Mathlib

/-!
Shallow embedding of `src/module/webtoon_analyzer.py` (NWebtoon_Downloader).

The remote HTTP world is passed in explicitly:
  * `InfoResponse` models the info-API response consumed by
    `WebtoonAnalyzer.__fetch_webtoon_metadata` (status code, parsed
    `NWebtoonMainData` fields `titleName` and `age.type`);
  * `pages : Nat → ListPageResponse` models the list-API endpoint
    (`?titleId=...&page=p`), giving for every page number its status code and
    its parsed `NWebtoonArticleListData` body;
  * `FetchOutcome` models one detail-page fetch as consumed by
    `WebtoonDownloader.get_episode_images`: either a caught exception, or a
    status code together with the parse of the HTML body, reduced to the part
    the code inspects — the `div#sectionContWide` container (absent or
    present) and, in document order, the `src` attribute of each `img` tag
    inside it (`none` when the attribute is absent).

Python exceptions are modelled by `Except PyError`; `asyncio.gather` without
`return_exceptions` is sequencing in the `Except` monad, and with
`return_exceptions=True` it is a list of per-task `Except` values.
-/

namespace NWebtoon

/-- The `EpisodeInfo` dataclass (webtoon_analyzer.py lines 19–30); `img_urls`
defaults to `[]` via `__post_init__`. -/
structure EpisodeInfo where
  no : Nat
  subtitle : String
  thumbnail_lock : Bool
  img_urls : List String := []
deriving Repr, DecidableEq

/-- The `WebtoonMetadata` dataclass (lines 33–43): the three list-API fields are
`None` for adult webtoons. -/
structure WebtoonMetadata where
  title_id : Nat
  title_name : String
  is_adult : Bool
  total_count : Option Nat := none
  page_size : Option Nat := none
  total_pages : Option Nat := none
deriving Repr, DecidableEq

/-- The `pageInfo` block of the list-API response. -/
structure PageInfo where
  pageSize : Nat
  totalPages : Nat
deriving Repr, DecidableEq

/-- One entry of `articleList` in the list-API response. -/
structure RawArticle where
  no : Nat
  subtitle : String
  thumbnailLock : Bool
deriving Repr, DecidableEq

/-- Parsed `NWebtoonArticleListData` (pydantic model) of one list-API page. -/
structure NWebtoonArticleListData where
  totalCount : Nat
  pageInfo : PageInfo
  articleList : List RawArticle
deriving Repr, DecidableEq

/-- A list-API page response: HTTP status plus the parsed body. -/
structure ListPageResponse where
  status : Nat
  payload : NWebtoonArticleListData
deriving Repr, DecidableEq

/-- The info-API response: HTTP status plus the `NWebtoonMainData` fields the
code reads (`titleName`, `age.type`). -/
structure InfoResponse where
  status : Nat
  titleName : String
  ageType : String
deriving Repr, DecidableEq

/-- Python exceptions raised by the analyzer, one constructor per `raise`
site, plus `typeError` for the implicit `TypeError` that
`range(1, metadata.total_pages + 1)` raises when `total_pages` is `None`. -/
inductive PyError
  | infoRequestFailed (status : Nat)
  | listRequestFailed (status : Nat)
  | pageRequestFailed (page status : Nat)
  | typeError
deriving Repr, DecidableEq

/-- Embedding of `WebtoonAnalyzer.__fetch_webtoon_metadata` (lines 102–160): raise on a
non-200 info response; classify adult by `age.type == "RATE_18"`; for a
non-adult title fetch list page 1 and fill the three paging fields, raising
on non-200; for an adult title skip the list request and leave them `None`. -/
def fetch_webtoon_metadata (title_id : Nat) (info : InfoResponse)
    (pages : Nat → ListPageResponse) : Except PyError WebtoonMetadata :=
  if info.status ≠ 200 then
    .error (.infoRequestFailed info.status)
  else
    let is_adult := info.ageType == "RATE_18"
    let title_name := info.titleName
    if !is_adult then
      let response := pages 1
      if response.status = 200 then
        .ok { title_id := title_id, title_name := title_name, is_adult := is_adult,
              total_count := some response.payload.totalCount,
              page_size := some response.payload.pageInfo.pageSize,
              total_pages := some response.payload.pageInfo.totalPages }
      else
        .error (.listRequestFailed response.status)
    else
      .ok { title_id := title_id, title_name := title_name, is_adult := is_adult,
            total_count := none, page_size := none, total_pages := none }

/-- Embedding of `WebtoonAnalyzer.__get_episode_list_page` (lines 162–181): return the
parsed body on status 200, raise otherwise. -/
def get_episode_list_page (pages : Nat → ListPageResponse) (page : Nat) :
    Except PyError NWebtoonArticleListData :=
  let response := pages page
  if response.status = 200 then .ok response.payload
  else .error (.pageRequestFailed page response.status)

/-- The task list built at lines 197–200: one fetch per page in
`range(1, total_pages + 1)`, i.e. the page numbers `1, …, total_pages`. -/
def taskPages (total_pages : Nat) : List Nat := List.range' 1 total_pages

/-- Embedding of `asyncio.gather(*tasks)` over the page tasks (line 203): all results in
task order, or the propagated exception if any task raises. -/
def gatherPages (pages : Nat → ListPageResponse) :
    List Nat → Except PyError (List NWebtoonArticleListData)
  | [] => .ok []
  | p :: rest =>
    match get_episode_list_page pages p with
    | .error e => .error e
    | .ok r =>
      match gatherPages pages rest with
      | .error e => .error e
      | .ok rs => .ok (r :: rs)

/-- Lines 211–215: build an `EpisodeInfo` from one `articleList` entry,
`img_urls` defaulted empty. -/
def episodeOfArticle (a : RawArticle) : EpisodeInfo :=
  { no := a.no, subtitle := a.subtitle, thumbnail_lock := a.thumbnailLock,
    img_urls := [] }

/-- The sort key of line 219: compare episodes by `no`. -/
def epLE (a b : EpisodeInfo) : Bool := a.no ≤ b.no

/-- Embedding of `all_episodes.sort(key=lambda x: x.no)` (line 219): a stable sort by
`no`, modelled by the stable `List.mergeSort`. -/
def sortEpisodes (l : List EpisodeInfo) : List EpisodeInfo := l.mergeSort epLE

/-- Embedding of `WebtoonAnalyzer.__get_all_episodes` (lines 183–221). When
`metadata.total_pages` is `None` (adult title), `range(1, total_pages + 1)`
raises `TypeError`; otherwise gather all pages, flatten every page's
`articleList` into episodes in page order, and sort ascending by `no`. -/
def get_all_episodes (pages : Nat → ListPageResponse)
    (metadata : WebtoonMetadata) : Except PyError (List EpisodeInfo) :=
  match metadata.total_pages with
  | none => .error .typeError
  | some tp =>
    match gatherPages pages (taskPages tp) with
    | .error e => .error e
    | .ok responses =>
      .ok (sortEpisodes
        (responses.flatMap (fun r => r.articleList.map episodeOfArticle)))

/-- The loop body of `WebtoonAnalyzer.__find_downloadable_episodes`
(lines 237–241): append episodes until the first `thumbnail_lock`, then
break. -/
def downloadableScan : List EpisodeInfo → List EpisodeInfo
  | [] => []
  | e :: rest => if e.thumbnail_lock then [] else e :: downloadableScan rest

/-- Embedding of `WebtoonAnalyzer.__find_downloadable_episodes` (lines 223–243). -/
def find_downloadable_episodes (episodes : List EpisodeInfo) :
    Nat × List EpisodeInfo :=
  let downloadable := downloadableScan episodes
  (downloadable.length, downloadable)

/-- The analyzer state written by `__init_analysis` (lines 92–100). -/
structure AnalyzerState where
  title_id : Nat
  total_count : Nat
  downloadable_count : Nat
  page_size : Nat
  total_pages : Nat
  is_adult : Bool
  downloadable_episodes : List EpisodeInfo
  full_episodes : List EpisodeInfo
deriving Repr, DecidableEq

/-- Embedding of `WebtoonAnalyzer.__init_analysis` (lines 79–100), the body of the
`WebtoonAnalyzer.create` factory: resolve metadata, fetch all episodes,
classify, and store; `metadata.total_count or 0` etc. become `Option.getD 0`. -/
def init_analysis (title_id : Nat) (info : InfoResponse)
    (pages : Nat → ListPageResponse) : Except PyError AnalyzerState :=
  match fetch_webtoon_metadata title_id info pages with
  | .error e => .error e
  | .ok metadata =>
    match get_all_episodes pages metadata with
    | .error e => .error e
    | .ok all_episodes =>
      let result := find_downloadable_episodes all_episodes
      .ok { title_id := metadata.title_id,
            total_count := metadata.total_count.getD 0,
            downloadable_count := result.1,
            page_size := metadata.page_size.getD 0,
            total_pages := metadata.total_pages.getD 0,
            is_adult := metadata.is_adult,
            downloadable_episodes := result.2,
            full_episodes := all_episodes }

/-- One detail-page fetch as consumed by `WebtoonDownloader.get_episode_images`
(lines 300–327): either a caught exception (`exn`), or a status code together
with the parse of the HTML body reduced to what the code inspects —
`soup.find("div", id="sectionContWide")` (absent = `none`) and, for each
`img` tag inside it in document order, `img.get("src")` (`none` when the
attribute is absent). -/
inductive FetchOutcome
  | exn
  | status (code : Nat) (sectionContWide : Option (List (Option String)))
deriving Repr, DecidableEq

/-- The collection loop of lines 318–323: for every `img` tag, append
`src = img.get("src")` when `if src:` holds, i.e. when the attribute exists
and is a non-empty string. -/
def collectImgSrcs : List (Option String) → List String
  | [] => []
  | src :: rest =>
    match src with
    | some s => if s ≠ "" then s :: collectImgSrcs rest else collectImgSrcs rest
    | none => collectImgSrcs rest

/-- Embedding of `WebtoonDownloader.get_episode_images` (lines 288–342): on status 200,
set `img_urls` from the `sectionContWide` container (empty when the container
is absent); on a non-200 status or any caught exception, set `img_urls = []`;
always return the episode. -/
def get_episode_images (episode : EpisodeInfo) (outcome : FetchOutcome) :
    EpisodeInfo :=
  match outcome with
  | .exn => { episode with img_urls := [] }
  | .status code sect =>
    if code = 200 then
      match sect with
      | some imgs => { episode with img_urls := collectImgSrcs imgs }
      | none => { episode with img_urls := [] }
    else
      { episode with img_urls := [] }

/-- The result handling of lines 415–421: a task result that is an exception
degrades `batch[j]` to empty `img_urls`; a normal result is kept as is. -/
def resolveTaskResult (ep : EpisodeInfo) (r : Except PyError EpisodeInfo) :
    EpisodeInfo :=
  match r with
  | .error _ => { ep with img_urls := [] }
  | .ok e => e

/-- The slicing loop of lines 399–400: `episodes[i : i + batch_size]` for
`i in range(0, total, batch_size)` — the consecutive chunks of the batch
loop. -/
def episodeBatches (batch_size : Nat) (rem : List EpisodeInfo) :
    List (List EpisodeInfo) :=
  if rem = [] ∨ batch_size = 0 then []
  else rem.take batch_size :: episodeBatches batch_size (rem.drop batch_size)
termination_by rem.length
decreasing_by
  rename_i h
  push_neg at h
  have h1 : rem.length ≠ 0 := fun hl => h.1 (List.eq_nil_of_length_eq_zero hl)
  simp only [List.length_drop]
  omega

/-- The batch loop of `get_episodes_with_images_batch` (lines 399–426),
parameterized by the per-episode task `run` (what `asyncio.gather(*tasks,
return_exceptions=True)` returns for one episode). Each iteration takes one
chunk, resolves its task results, and — when `i + batch_size <
total_episodes`, i.e. when the chunk is not the last — performs one
`asyncio.sleep(1)` pause; the second component counts those pauses. -/
def batchLoop (run : EpisodeInfo → Except PyError EpisodeInfo)
    (batch_size : Nat) (rem : List EpisodeInfo) : List EpisodeInfo × Nat :=
  if rem = [] ∨ batch_size = 0 then ([], 0)
  else
    let batch := rem.take batch_size
    let batch_results := batch.map run
    let processed := List.zipWith resolveTaskResult batch batch_results
    let next := batchLoop run batch_size (rem.drop batch_size)
    (processed ++ next.1,
      (if batch_size < rem.length then 1 else 0) + next.2)
termination_by rem.length
decreasing_by
  rename_i h
  push_neg at h
  have h1 : rem.length ≠ 0 := fun hl => h.1 (List.eq_nil_of_length_eq_zero hl)
  simp only [List.length_drop]
  omega

/-- Embedding of `WebtoonDownloader.get_episodes_with_images_batch` (lines 375–430):
return `[]` immediately on an empty episode list; otherwise run the batch
loop. `none` models the `ValueError` that `range(0, total, 0)` raises when
`batch_size = 0` on a non-empty list. The result pairs the collected
episodes with the number of inter-chunk pauses performed. -/
def get_episodes_with_images_batch
    (run : EpisodeInfo → Except PyError EpisodeInfo)
    (episodes : List EpisodeInfo) (batch_size : Nat) :
    Option (List EpisodeInfo × Nat) :=
  if episodes = [] then some ([], 0)
  else if batch_size = 0 then none
  else some (batchLoop run batch_size episodes)

/-- Embedding of `WebtoonDownloader.get_episodes_with_images` (lines 344–373): gather one
`get_episode_images` task per episode, results in task order. Since
`get_episode_images` catches all exceptions, each task is total here. -/
def get_episodes_with_images (run0 : EpisodeInfo → EpisodeInfo)
    (episodes : List EpisodeInfo) : List EpisodeInfo :=
  if episodes = [] then [] else episodes.map run0

/-- The chunk sizes produced by slicing a list of length `n` into chunks of
`batch_size` (`episodeBatches` determines them from the length alone). -/
def batchLengths (batch_size n : Nat) : List Nat :=
  if n = 0 ∨ batch_size = 0 then []
  else min batch_size n :: batchLengths batch_size (n - batch_size)
termination_by n
decreasing_by
  rename_i h
  push_neg at h
  omega

/-! Concrete inputs used by counterexamples and witnesses. -/

/-- An info response for an adult title (`age.type = "RATE_18"`). -/
def adultInfo : InfoResponse :=
  { status := 200, titleName := "X", ageType := "RATE_18" }

/-- An info response for an ordinary (non-adult) title. -/
def normalInfo : InfoResponse :=
  { status := 200, titleName := "Y", ageType := "RATE_15" }

/-- A list endpoint whose page `p` carries the single episode `no = p`. -/
def pagesByNo : Nat → ListPageResponse := fun p =>
  { status := 200,
    payload := { totalCount := 2, pageInfo := { pageSize := 1, totalPages := 2 },
                 articleList := [{ no := p, subtitle := "s", thumbnailLock := false }] } }

/-- An article that two different pages both return. -/
def dupArticle : RawArticle := { no := 5, subtitle := "dup", thumbnailLock := false }

/-- A list endpoint where every page returns the same article — overlapping
page ranges. -/
def overlappingPages : Nat → ListPageResponse := fun _ =>
  { status := 200,
    payload := { totalCount := 2, pageInfo := { pageSize := 1, totalPages := 2 },
                 articleList := [dupArticle] } }

/-- Metadata resolving to two list pages. -/
def twoPageMetadata : WebtoonMetadata :=
  { title_id := 7, title_name := "t", is_adult := false,
    total_count := some 2, page_size := some 1, total_pages := some 2 }

/-- A list endpoint that always answers 500. -/
def failingPages : Nat → ListPageResponse := fun _ =>
  { status := 500,
    payload := { totalCount := 0, pageInfo := { pageSize := 0, totalPages := 0 },
                 articleList := [] } }

/-- A list endpoint that always answers 200 with an empty article list. -/
def emptyPages : Nat → ListPageResponse := fun _ =>
  { status := 200,
    payload := { totalCount := 0, pageInfo := { pageSize := 0, totalPages := 0 },
                 articleList := [] } }

/-- A shorthand for an unlocked episode with number `n`. -/
def unlockedEp (n : Nat) : EpisodeInfo :=
  { no := n, subtitle := "u", thumbnail_lock := false, img_urls := [] }

/-- A shorthand for a locked episode with number `n`. -/
def lockedEp (n : Nat) : EpisodeInfo :=
  { no := n, subtitle := "l", thumbnail_lock := true, img_urls := [] }

/-- A sequence whose first locked episode sits at 0-indexed position 1. -/
def wSeq : List EpisodeInfo := [unlockedEp 1, lockedEp 2, unlockedEp 3]

/-- The list `wSeq` with the lock at position 2 (strictly after the first lock)
flipped. -/
def wSeqFlipped : List EpisodeInfo := [unlockedEp 1, lockedEp 2, lockedEp 3]

/-- Twelve unlocked episodes, for the `batchSize = 5` scenario. -/
def twelveEpisodes : List EpisodeInfo :=
  [unlockedEp 1, unlockedEp 2, unlockedEp 3, unlockedEp 4, unlockedEp 5,
   unlockedEp 6, unlockedEp 7, unlockedEp 8, unlockedEp 9, unlockedEp 10,
   unlockedEp 11, unlockedEp 12]

/-! ## Helper lemmas -/

theorem epLE_trans : ∀ (a b c : EpisodeInfo), epLE a b → epLE b c → epLE a c := by
  intro a b c hab hbc
  simp only [epLE, decide_eq_true_eq] at *
  omega

theorem epLE_total : ∀ (a b : EpisodeInfo), epLE a b || epLE b a := by
  intro a b
  simp only [epLE, Bool.or_eq_true, decide_eq_true_eq]
  omega

theorem sortEpisodes_pairwise (l : List EpisodeInfo) :
    (sortEpisodes l).Pairwise (fun a b => a.no ≤ b.no) := by
  have h := List.sorted_mergeSort epLE_trans epLE_total l
  exact h.imp (by intro a b hab; simpa [epLE] using hab)

theorem sortEpisodes_perm (l : List EpisodeInfo) : (sortEpisodes l).Perm l :=
  List.mergeSort_perm l epLE

theorem sortEpisodes_length (l : List EpisodeInfo) :
    (sortEpisodes l).length = l.length :=
  (sortEpisodes_perm l).length_eq

theorem sortEpisodes_of_sorted {l : List EpisodeInfo}
    (h : l.Pairwise (fun a b => a.no ≤ b.no)) : sortEpisodes l = l :=
  List.mergeSort_of_sorted (h.imp (by intro a b hab; simpa [epLE] using hab))

theorem get_episode_list_page_ok {pages : Nat → ListPageResponse} {p : Nat}
    {r : NWebtoonArticleListData}
    (h : get_episode_list_page pages p = .ok r) :
    (pages p).status = 200 ∧ r = (pages p).payload := by
  by_cases hs : (pages p).status = 200
  · simp only [get_episode_list_page, hs, if_pos] at h
    injection h with h'
    exact ⟨hs, h'.symm⟩
  · simp [get_episode_list_page, hs] at h

theorem gatherPages_ok_elim {pages : Nat → ListPageResponse} :
    ∀ {ps : List Nat} {rs : List NWebtoonArticleListData},
      gatherPages pages ps = .ok rs →
      rs = ps.map (fun p => (pages p).payload) ∧
        ∀ p ∈ ps, (pages p).status = 200 := by
  intro ps
  induction ps with
  | nil =>
    intro rs h
    refine ⟨?_, by intro p hp; cases hp⟩
    injection h with h'
    exact h'.symm
  | cons p rest ih =>
    intro rs h
    unfold gatherPages at h
    cases hq : get_episode_list_page pages p with
    | error e => rw [hq] at h; exact absurd h (by simp)
    | ok r =>
      rw [hq] at h
      cases hrest : gatherPages pages rest with
      | error e => rw [hrest] at h; exact absurd h (by simp)
      | ok rs' =>
        rw [hrest] at h
        injection h with h'
        obtain ⟨hstat, hr⟩ := get_episode_list_page_ok hq
        obtain ⟨hmap, hall⟩ := ih hrest
        subst h'
        refine ⟨by simp [hr, hmap], ?_⟩
        intro q hq'
        rcases List.mem_cons.mp hq' with hq' | hq'
        · exact hq' ▸ hstat
        · exact hall q hq'

theorem gatherPages_ok {pages : Nat → ListPageResponse} :
    ∀ {ps : List Nat}, (∀ p ∈ ps, (pages p).status = 200) →
      gatherPages pages ps = .ok (ps.map (fun p => (pages p).payload)) := by
  intro ps
  induction ps with
  | nil => intro _; rfl
  | cons p rest ih =>
    intro h
    have hp := h p (List.mem_cons_self p rest)
    have hrest := ih (fun q hq => h q (List.mem_cons_of_mem p hq))
    unfold gatherPages get_episode_list_page
    rw [if_pos hp, hrest]
    rfl

theorem gatherPages_error {pages : Nat → ListPageResponse} :
    ∀ {ps : List Nat}, (∃ p ∈ ps, (pages p).status ≠ 200) →
      ∃ p ∈ ps, (pages p).status ≠ 200 ∧
        gatherPages pages ps = .error (.pageRequestFailed p (pages p).status) := by
  intro ps
  induction ps with
  | nil => rintro ⟨p, hp, _⟩; cases hp
  | cons p rest ih =>
    rintro ⟨q, hq, hqs⟩
    by_cases hp : (pages p).status = 200
    · have hqrest : q ∈ rest := by
        rcases List.mem_cons.mp hq with h | h
        · exact absurd (h ▸ hp) hqs
        · exact h
      obtain ⟨q', hq', hq's, herr⟩ := ih ⟨q, hqrest, hqs⟩
      refine ⟨q', List.mem_cons_of_mem p hq', hq's, ?_⟩
      unfold gatherPages get_episode_list_page
      rw [if_pos hp, herr]
    · refine ⟨p, List.mem_cons_self p rest, hp, ?_⟩
      unfold gatherPages get_episode_list_page
      rw [if_neg hp]

/-- When every requested page answers 200, `get_all_episodes` succeeds with
the sorted flattening of all pages' article lists. -/
theorem get_all_episodes_ok {pages : Nat → ListPageResponse}
    {md : WebtoonMetadata} {tp : Nat} (htp : md.total_pages = some tp)
    (hstat : ∀ p ∈ taskPages tp, (pages p).status = 200) :
    get_all_episodes pages md =
      .ok (sortEpisodes ((taskPages tp).flatMap
        (fun p => (pages p).payload.articleList.map episodeOfArticle))) := by
  simp [get_all_episodes, htp, gatherPages_ok hstat, List.flatMap_map]

theorem downloadableScan_eq_self :
    ∀ {l : List EpisodeInfo}, (∀ e ∈ l, e.thumbnail_lock = false) →
      downloadableScan l = l := by
  intro l
  induction l with
  | nil => intro _; rfl
  | cons e rest ih =>
    intro h
    have he := h e (List.mem_cons_self e rest)
    simp [downloadableScan, he,
      ih (fun x hx => h x (List.mem_cons_of_mem e hx))]

theorem downloadableScan_eq_take :
    ∀ {l : List EpisodeInfo} {k : Nat} (hk : k < l.length),
      (∀ i (hi : i < k), (l.get ⟨i, Nat.lt_trans hi hk⟩).thumbnail_lock = false) →
      (l.get ⟨k, hk⟩).thumbnail_lock = true →
      downloadableScan l = l.take k := by
  intro l
  induction l with
  | nil => intro k hk; exact absurd hk (by simp)
  | cons e rest ih =>
    intro k hk hunlocked hlock
    cases k with
    | zero =>
      have he : e.thumbnail_lock = true := by simpa using hlock
      simp [downloadableScan, he]
    | succ j =>
      have he : e.thumbnail_lock = false := by
        simpa using hunlocked 0 (Nat.succ_pos j)
      have hj : j < rest.length := by simpa using hk
      have hun' : ∀ i (hi : i < j),
          (rest.get ⟨i, Nat.lt_trans hi hj⟩).thumbnail_lock = false := by
        intro i hi
        simpa using hunlocked (i + 1) (Nat.succ_lt_succ hi)
      have hlk' : (rest.get ⟨j, hj⟩).thumbnail_lock = true := by
        simpa using hlock
      simp [downloadableScan, he, List.take_succ_cons, ih hj hun' hlk']

theorem zipWith_resolve_map (run : EpisodeInfo → Except PyError EpisodeInfo) :
    ∀ (batch : List EpisodeInfo),
      List.zipWith resolveTaskResult batch (batch.map run)
        = batch.map (fun e => resolveTaskResult e (run e)) := by
  intro batch
  induction batch with
  | nil => rfl
  | cons e rest ih => simp [ih]

theorem batchLoop_fst (run : EpisodeInfo → Except PyError EpisodeInfo)
    (batch_size : Nat) (hbs : batch_size ≠ 0) (rem : List EpisodeInfo) :
    (batchLoop run batch_size rem).1
      = rem.map (fun e => resolveTaskResult e (run e)) := by
  by_cases hr : rem = []
  · subst hr
    rw [batchLoop]
    simp
  · have ih := batchLoop_fst run batch_size hbs (rem.drop batch_size)
    rw [batchLoop, if_neg (by simp [hr, hbs])]
    simp only [zipWith_resolve_map, ih]
    rw [← List.map_append, List.take_append_drop]
termination_by rem.length
decreasing_by
  have : rem.length ≠ 0 := fun h => hr (List.eq_nil_of_length_eq_zero h)
  simp only [List.length_drop]
  omega

theorem episodeBatches_nil (batch_size : Nat) :
    episodeBatches batch_size [] = [] := by
  rw [episodeBatches]
  simp

theorem episodeBatches_ne_nil {batch_size : Nat} (hbs : batch_size ≠ 0)
    {l : List EpisodeInfo} (hl : l ≠ []) :
    episodeBatches batch_size l ≠ [] := by
  rw [episodeBatches, if_neg (by simp [hl, hbs])]
  simp

theorem episodeBatches_cons {batch_size : Nat} (hbs : batch_size ≠ 0)
    {l : List EpisodeInfo} (hl : l ≠ []) :
    episodeBatches batch_size l
      = l.take batch_size :: episodeBatches batch_size (l.drop batch_size) := by
  rw [episodeBatches, if_neg (by simp [hl, hbs])]

theorem batchLengths_cons {batch_size n : Nat} (hbs : batch_size ≠ 0)
    (hn : n ≠ 0) :
    batchLengths batch_size n
      = min batch_size n :: batchLengths batch_size (n - batch_size) := by
  rw [batchLengths, if_neg (by simp [hn, hbs])]

theorem batchLoop_cons (run : EpisodeInfo → Except PyError EpisodeInfo)
    {batch_size : Nat} (hbs : batch_size ≠ 0)
    {rem : List EpisodeInfo} (hr : rem ≠ []) :
    batchLoop run batch_size rem
      = (List.zipWith resolveTaskResult (rem.take batch_size)
            ((rem.take batch_size).map run)
          ++ (batchLoop run batch_size (rem.drop batch_size)).1,
         (if batch_size < rem.length then 1 else 0)
          + (batchLoop run batch_size (rem.drop batch_size)).2) := by
  rw [batchLoop, if_neg (by simp [hr, hbs])]

theorem episodeBatches_flatten (batch_size : Nat) (hbs : batch_size ≠ 0)
    (l : List EpisodeInfo) :
    (episodeBatches batch_size l).flatten = l := by
  by_cases hl : l = []
  · subst hl
    simp [episodeBatches_nil]
  · have ih := episodeBatches_flatten batch_size hbs (l.drop batch_size)
    rw [episodeBatches, if_neg (by simp [hl, hbs])]
    simp [ih]
termination_by l.length
decreasing_by
  have : l.length ≠ 0 := fun h => hl (List.eq_nil_of_length_eq_zero h)
  simp only [List.length_drop]
  omega

theorem episodeBatches_mem (batch_size : Nat) (hbs : batch_size ≠ 0)
    (l : List EpisodeInfo) :
    ∀ c ∈ episodeBatches batch_size l, c ≠ [] ∧ c.length ≤ batch_size := by
  by_cases hl : l = []
  · subst hl
    simp [episodeBatches_nil]
  · have ih := episodeBatches_mem batch_size hbs (l.drop batch_size)
    rw [episodeBatches, if_neg (by simp [hl, hbs])]
    intro c hc
    rcases List.mem_cons.mp hc with hc | hc
    · subst hc
      constructor
      · simp [List.take_eq_nil_iff, hl, hbs]
      · simp
    · exact ih c hc
termination_by l.length
decreasing_by
  have : l.length ≠ 0 := fun h => hl (List.eq_nil_of_length_eq_zero h)
  simp only [List.length_drop]
  omega

theorem episodeBatches_dropLast (batch_size : Nat) (hbs : batch_size ≠ 0)
    (l : List EpisodeInfo) :
    ∀ c ∈ (episodeBatches batch_size l).dropLast, c.length = batch_size := by
  by_cases hl : l = []
  · subst hl
    simp [episodeBatches_nil]
  · have ih := episodeBatches_dropLast batch_size hbs (l.drop batch_size)
    rw [episodeBatches, if_neg (by simp [hl, hbs])]
    by_cases hd : l.drop batch_size = []
    · rw [hd, episodeBatches_nil]
      simp
    · rw [List.dropLast_cons_of_ne_nil (episodeBatches_ne_nil hbs hd)]
      intro c hc
      rcases List.mem_cons.mp hc with hc | hc
      · subst hc
        have hlen : batch_size < l.length := by
          by_contra hcon
          exact hd (List.drop_eq_nil_of_le (by omega))
        simp [List.length_take]
        omega
      · exact ih c hc
termination_by l.length
decreasing_by
  have : l.length ≠ 0 := fun h => hl (List.eq_nil_of_length_eq_zero h)
  simp only [List.length_drop]
  omega

theorem episodeBatches_map_length (batch_size : Nat) (l : List EpisodeInfo) :
    (episodeBatches batch_size l).map List.length
      = batchLengths batch_size l.length := by
  by_cases hbs : batch_size = 0
  · subst hbs
    rw [episodeBatches, batchLengths]
    simp
  · by_cases hl : l = []
    · subst hl
      rw [episodeBatches_nil, batchLengths]
      simp
    · have ih := episodeBatches_map_length batch_size (l.drop batch_size)
      rw [episodeBatches_cons hbs hl,
        batchLengths_cons hbs (fun hc => hl (List.eq_nil_of_length_eq_zero hc))]
      simp [ih, List.length_take, List.length_drop]
termination_by l.length
decreasing_by
  have : l.length ≠ 0 := fun hc => hl (List.eq_nil_of_length_eq_zero hc)
  simp only [List.length_drop]
  omega

theorem batchLoop_snd (run : EpisodeInfo → Except PyError EpisodeInfo)
    (batch_size : Nat) (hbs : batch_size ≠ 0) (rem : List EpisodeInfo) :
    (batchLoop run batch_size rem).2
      = (episodeBatches batch_size rem).length - 1 := by
  by_cases hr : rem = []
  · subst hr
    rw [batchLoop]
    simp [episodeBatches_nil]
  · have ih := batchLoop_snd run batch_size hbs (rem.drop batch_size)
    rw [batchLoop_cons run hbs hr, episodeBatches_cons hbs hr]
    by_cases hlt : batch_size < rem.length
    · have hd : rem.drop batch_size ≠ [] := by
        intro hc
        have := List.drop_eq_nil_iff.mp hc
        omega
      have hne := episodeBatches_ne_nil hbs hd
      have hpos : 1 ≤ (episodeBatches batch_size (rem.drop batch_size)).length := by
        rcases List.exists_cons_of_ne_nil hne with ⟨c, cs, hcs⟩
        simp [hcs]
      simp only [ih, if_pos hlt, List.length_cons]
      omega
    · have hd : rem.drop batch_size = [] :=
        List.drop_eq_nil_of_le (by omega)
      simp only [ih, if_neg hlt, hd, episodeBatches_nil, List.length_cons]
      rw [batchLoop]
      simp
termination_by rem.length
decreasing_by
  have : rem.length ≠ 0 := fun h => hr (List.eq_nil_of_length_eq_zero h)
  simp only [List.length_drop]
  omega

theorem collectImgSrcs_eq_filterMap :
    ∀ (imgs : List (Option String)),
      collectImgSrcs imgs
        = imgs.filterMap
            (fun src => src.bind (fun s => if s = "" then none else some s)) := by
  intro imgs
  induction imgs with
  | nil => rfl
  | cons src rest ih =>
    cases src with
    | none => simp [collectImgSrcs, ih]
    | some s =>
      by_cases hs : s = ""
      · simp [collectImgSrcs, hs, ih]
      · simp [collectImgSrcs, hs, ih]

theorem get_take_eq {α : Type _} {l l' : List α} {m : Nat}
    (h : l.take m = l'.take m) {i : Nat} (hi : i < m)
    (h1 : i < l.length) (h2 : i < l'.length) :
    l.get ⟨i, h1⟩ = l'.get ⟨i, h2⟩ := by
  have e : l[i]? = l'[i]? := by
    rw [← @List.getElem?_take_of_lt _ l m i hi,
      ← @List.getElem?_take_of_lt _ l' m i hi, h]
  have e' : some (l.get ⟨i, h1⟩) = some (l'.get ⟨i, h2⟩) := by
    simp only [List.get_eq_getElem]
    rw [← List.getElem?_eq_getElem h1, ← List.getElem?_eq_getElem h2, e]
  injection e'

/-- Lemma: `get_all_episodes` succeeds only when every page request succeeded, and
then its value is the sorted flattening of the gathered pages. -/
theorem get_all_episodes_ok_elim {pages : Nat → ListPageResponse}
    {md : WebtoonMetadata} {tp : Nat} {l : List EpisodeInfo}
    (htp : md.total_pages = some tp)
    (hok : get_all_episodes pages md = .ok l) :
    ∃ responses, gatherPages pages (taskPages tp) = .ok responses ∧
      l = sortEpisodes
        (responses.flatMap (fun r => r.articleList.map episodeOfArticle)) := by
  have hok' : (match gatherPages pages (taskPages tp) with
      | .error e => (.error e : Except PyError (List EpisodeInfo))
      | .ok responses =>
        .ok (sortEpisodes
          (responses.flatMap (fun r => r.articleList.map episodeOfArticle))))
      = .ok l := by
    rw [← hok]
    unfold get_all_episodes
    rw [htp]
  cases hg : gatherPages pages (taskPages tp) with
  | error e =>
    rw [hg] at hok'
    exact absurd hok' (by simp)
  | ok responses =>
    rw [hg] at hok'
    have hok'' : Except.ok (sortEpisodes
        (responses.flatMap (fun r => r.articleList.map episodeOfArticle)))
        = (Except.ok l : Except PyError (List EpisodeInfo)) := hok'
    injection hok'' with hok''
    exact ⟨responses, rfl, hok''.symm⟩

/-- Unfolding of `fetch_webtoon_metadata` with the `let` aliases inlined. -/
theorem fetch_webtoon_metadata_eq (title_id : Nat) (info : InfoResponse)
    (pages : Nat → ListPageResponse) :
    fetch_webtoon_metadata title_id info pages =
      if info.status ≠ 200 then .error (.infoRequestFailed info.status)
      else if info.ageType == "RATE_18" then
        .ok { title_id := title_id, title_name := info.titleName,
              is_adult := true, total_count := none, page_size := none,
              total_pages := none }
      else if (pages 1).status = 200 then
        .ok { title_id := title_id, title_name := info.titleName,
              is_adult := false,
              total_count := some (pages 1).payload.totalCount,
              page_size := some (pages 1).payload.pageInfo.pageSize,
              total_pages := some (pages 1).payload.pageInfo.totalPages }
      else .error (.listRequestFailed (pages 1).status) := by
  unfold fetch_webtoon_metadata
  by_cases ha : info.ageType == "RATE_18" <;>
    by_cases hs : info.status = 200 <;>
      simp [ha, hs]

/-! ## Claims -/

/-- Claim C1. The claim states that for an adult title the Analysis Facade
(`WebtoonAnalyzer.create` / `__init_analysis`) short-circuits with a distinct
`AdultContentUnsupported` terminal outcome rather than attempting pagination.
The code does not: `__fetch_webtoon_metadata` returns adult metadata with
`total_pages = None`, and `__init_analysis` then calls `__get_all_episodes`,
where `range(1, metadata.total_pages + 1)` raises a generic `TypeError`
(`None + 1`), so `create` crashes instead of surfacing a distinct adult
outcome — even though the module's own test drivers branch on
`analyzer.is_adult` after `create` returns. This theorem evaluates the
embedded `__init_analysis` at an adult title: the outcome is the generic
`TypeError`, not a recognized adult condition (no such condition exists in
the code), though the adult case is indeed never silently treated as zero
episodes. -/
theorem c1_adult_title_generic_type_error :
    init_analysis 9 adultInfo emptyPages = .error .typeError := rfl

/-- Claim C2, counterexample. The claim asserts the aggregated episode list
never contains duplicate `no` values even when per-page responses overlap;
but `__get_all_episodes` performs no dedup, so two pages that both return
the article with `no = 5` yield a result whose `no` projection `[5, 5]` has
a duplicate. -/
theorem c2_counterexample :
    get_all_episodes overlappingPages twoPageMetadata
        = .ok [episodeOfArticle dupArticle, episodeOfArticle dupArticle] ∧
      ¬ (([episodeOfArticle dupArticle, episodeOfArticle dupArticle].map
            EpisodeInfo.no).Nodup) := by
  constructor
  · have h := @get_all_episodes_ok overlappingPages twoPageMetadata 2 rfl
      (fun p _ => rfl)
    rw [h]
    exact congrArg Except.ok (sortEpisodes_of_sorted (by decide))
  · decide

/-- Claim C2, amended. Every successful aggregation result is sorted
ascending by `no`; it has no duplicate `no` values whenever the fetched
pages' article `no` values are pairwise distinct overall (dedup by `no` is
not performed, so overlapping page ranges propagate duplicates into the
result). -/
theorem c2_sorted_and_nodup_without_overlap
    (pages : Nat → ListPageResponse) (md : WebtoonMetadata) (tp : Nat)
    (l : List EpisodeInfo) (htp : md.total_pages = some tp)
    (hok : get_all_episodes pages md = .ok l) :
    l.Pairwise (fun a b => a.no ≤ b.no) ∧
      ((((taskPages tp).flatMap
          (fun p => (pages p).payload.articleList.map RawArticle.no)).Nodup) →
        (l.map EpisodeInfo.no).Nodup) := by
  obtain ⟨responses, hg, hl⟩ := get_all_episodes_ok_elim htp hok
  obtain ⟨hmap, -⟩ := gatherPages_ok_elim hg
  subst hmap
  constructor
  · rw [hl]
    exact sortEpisodes_pairwise _
  · intro hnodup
    have hperm : (l.map EpisodeInfo.no).Perm
        ((((taskPages tp).map (fun p => (pages p).payload)).flatMap
          (fun r => r.articleList.map episodeOfArticle)).map EpisodeInfo.no) :=
      (hl ▸ sortEpisodes_perm _).map EpisodeInfo.no
    refine hperm.nodup_iff.mpr ?_
    have hfun : EpisodeInfo.no ∘ episodeOfArticle = RawArticle.no := by
      funext a
      rfl
    have : (((taskPages tp).map (fun p => (pages p).payload)).flatMap
          (fun r => r.articleList.map episodeOfArticle)).map EpisodeInfo.no
        = (taskPages tp).flatMap
            (fun p => (pages p).payload.articleList.map RawArticle.no) := by
      rw [List.flatMap_map, List.map_flatMap]
      simp only [List.map_map, hfun]
    rw [this]
    exact hnodup

/-- Claim C2, witness for the amended theorem at a concrete two-page fetch
with globally distinct `no` values. -/
theorem c2_witness :
    ([episodeOfArticle { no := 1, subtitle := "s", thumbnailLock := false },
      episodeOfArticle { no := 2, subtitle := "s", thumbnailLock := false }].Pairwise
        (fun a b => a.no ≤ b.no)) ∧
      ((((taskPages 2).flatMap
          (fun p => (pagesByNo p).payload.articleList.map RawArticle.no)).Nodup) →
        (([episodeOfArticle { no := 1, subtitle := "s", thumbnailLock := false },
           episodeOfArticle { no := 2, subtitle := "s", thumbnailLock := false }].map
            EpisodeInfo.no)).Nodup) := by
  have hok : get_all_episodes pagesByNo twoPageMetadata
      = .ok [episodeOfArticle { no := 1, subtitle := "s", thumbnailLock := false },
             episodeOfArticle { no := 2, subtitle := "s", thumbnailLock := false }] := by
    have h := @get_all_episodes_ok pagesByNo twoPageMetadata 2 rfl (fun p _ => rfl)
    rw [h]
    exact congrArg Except.ok (sortEpisodes_of_sorted (by decide))
  exact c2_sorted_and_nodup_without_overlap pagesByNo twoPageMetadata 2 _ rfl hok

/-- Claim C4. `__find_downloadable_episodes` returns `(len(seq), seq)` when
no episode is locked; returns `(k, seq[:k])` when position `k` (0-indexed)
holds the first locked episode; and is insensitive to lock flags at
positions strictly beyond the first lock. -/
theorem c4_classifier (seq : List EpisodeInfo) :
    ((∀ e ∈ seq, e.thumbnail_lock = false) →
        find_downloadable_episodes seq = (seq.length, seq)) ∧
      (∀ k (hk : k < seq.length),
        (∀ i (hi : i < k),
          (seq.get ⟨i, Nat.lt_trans hi hk⟩).thumbnail_lock = false) →
        (seq.get ⟨k, hk⟩).thumbnail_lock = true →
        find_downloadable_episodes seq = (k, seq.take k)) ∧
      (∀ (seq' : List EpisodeInfo) k (hk : k < seq.length),
        (∀ i (hi : i < k),
          (seq.get ⟨i, Nat.lt_trans hi hk⟩).thumbnail_lock = false) →
        (seq.get ⟨k, hk⟩).thumbnail_lock = true →
        seq.take (k + 1) = seq'.take (k + 1) →
        find_downloadable_episodes seq' = find_downloadable_episodes seq) := by
  have hb : ∀ (s : List EpisodeInfo) k (hk : k < s.length),
      (∀ i (hi : i < k),
        (s.get ⟨i, Nat.lt_trans hi hk⟩).thumbnail_lock = false) →
      (s.get ⟨k, hk⟩).thumbnail_lock = true →
      find_downloadable_episodes s = (k, s.take k) := by
    intro s k hk hun hlock
    have hpre := downloadableScan_eq_take hk hun hlock
    unfold find_downloadable_episodes
    rw [hpre]
    simp [List.length_take, Nat.min_eq_left (Nat.le_of_lt hk)]
  refine ⟨?_, hb seq, ?_⟩
  · intro h
    have hpre := downloadableScan_eq_self h
    unfold find_downloadable_episodes
    rw [hpre]
  · intro seq' k hk hun hlock htake
    have hlen : k + 1 ≤ seq'.length := by
      have h2 : (seq.take (k + 1)).length = (seq'.take (k + 1)).length := by
        rw [htake]
      simp only [List.length_take] at h2
      omega
    have hk' : k < seq'.length := by omega
    have hun' : ∀ i (hi : i < k),
        (seq'.get ⟨i, Nat.lt_trans hi hk'⟩).thumbnail_lock = false := by
      intro i hi
      rw [← get_take_eq htake (by omega) (Nat.lt_trans hi hk) (Nat.lt_trans hi hk')]
      exact hun i hi
    have hlock' : (seq'.get ⟨k, hk'⟩).thumbnail_lock = true := by
      rw [← get_take_eq htake (by omega) hk hk']
      exact hlock
    rw [hb seq' k hk' hun' hlock', hb seq k hk hun hlock]
    have : seq'.take k = seq.take k := by
      have h1 : seq'.take k = (seq'.take (k + 1)).take k := by
        rw [List.take_take, Nat.min_eq_left (by omega)]
      have h2 : seq.take k = (seq.take (k + 1)).take k := by
        rw [List.take_take, Nat.min_eq_left (by omega)]
      rw [h1, h2, htake]
    rw [this]

/-- Claim C4, witness: a fully unlocked sequence, a sequence first locked at
position 1, and the same sequence with the lock at position 2 flipped. -/
theorem c4_witness :
    find_downloadable_episodes twelveEpisodes = (twelveEpisodes.length, twelveEpisodes) ∧
      find_downloadable_episodes wSeq = (1, wSeq.take 1) ∧
      find_downloadable_episodes wSeqFlipped = find_downloadable_episodes wSeq :=
  ⟨(c4_classifier twelveEpisodes).1 (by decide),
   (c4_classifier wSeq).2.1 1 (by decide) (by decide) (by decide),
   (c4_classifier wSeq).2.2 wSeqFlipped 1 (by decide) (by decide) (by decide)
     (by decide)⟩

/-- Claim C9. Whenever `__fetch_webtoon_metadata` succeeds, the three paging
fields are present together or absent together: an adult title yields
`is_adult = true` with all three unset, a non-adult title yields all three
set. -/
theorem c9_paging_fields_together
    (title_id : Nat) (info : InfoResponse) (pages : Nat → ListPageResponse)
    (md : WebtoonMetadata)
    (h : fetch_webtoon_metadata title_id info pages = .ok md) :
    (md.is_adult = true →
        md.total_count = none ∧ md.page_size = none ∧ md.total_pages = none) ∧
      (md.is_adult = false →
        md.total_count.isSome ∧ md.page_size.isSome ∧ md.total_pages.isSome) ∧
      (md.total_count.isSome ↔ md.page_size.isSome) ∧
      (md.total_count.isSome ↔ md.total_pages.isSome) := by
  rw [fetch_webtoon_metadata_eq] at h
  by_cases hs : info.status = 200
  · rw [if_neg (by simp [hs])] at h
    by_cases ha : info.ageType == "RATE_18"
    · rw [if_pos ha] at h
      injection h with h'
      subst h'
      simp
    · rw [if_neg ha] at h
      by_cases hl : (pages 1).status = 200
      · rw [if_pos hl] at h
        injection h with h'
        subst h'
        simp
      · rw [if_neg hl] at h
        exact absurd h (by simp)
  · rw [if_pos (by simp [hs])] at h
    exact absurd h (by simp)

/-- Claim C9, witness: a concrete non-adult title with both requests
succeeding. -/
theorem c9_witness :
    (({ title_id := 3, title_name := "Y", is_adult := false,
        total_count := some 0, page_size := some 0, total_pages := some 0 }
          : WebtoonMetadata).is_adult = true →
        ({ title_id := 3, title_name := "Y", is_adult := false,
           total_count := some 0, page_size := some 0, total_pages := some 0 }
             : WebtoonMetadata).total_count = none ∧
          ({ title_id := 3, title_name := "Y", is_adult := false,
             total_count := some 0, page_size := some 0, total_pages := some 0 }
               : WebtoonMetadata).page_size = none ∧
          ({ title_id := 3, title_name := "Y", is_adult := false,
             total_count := some 0, page_size := some 0, total_pages := some 0 }
               : WebtoonMetadata).total_pages = none) ∧
      (({ title_id := 3, title_name := "Y", is_adult := false,
          total_count := some 0, page_size := some 0, total_pages := some 0 }
            : WebtoonMetadata).is_adult = false →
        ({ title_id := 3, title_name := "Y", is_adult := false,
           total_count := some 0, page_size := some 0, total_pages := some 0 }
             : WebtoonMetadata).total_count.isSome ∧
          ({ title_id := 3, title_name := "Y", is_adult := false,
             total_count := some 0, page_size := some 0, total_pages := some 0 }
               : WebtoonMetadata).page_size.isSome ∧
          ({ title_id := 3, title_name := "Y", is_adult := false,
             total_count := some 0, page_size := some 0, total_pages := some 0 }
               : WebtoonMetadata).total_pages.isSome) ∧
      (({ title_id := 3, title_name := "Y", is_adult := false,
          total_count := some 0, page_size := some 0, total_pages := some 0 }
            : WebtoonMetadata).total_count.isSome ↔
        ({ title_id := 3, title_name := "Y", is_adult := false,
           total_count := some 0, page_size := some 0, total_pages := some 0 }
             : WebtoonMetadata).page_size.isSome) ∧
      (({ title_id := 3, title_name := "Y", is_adult := false,
          total_count := some 0, page_size := some 0, total_pages := some 0 }
            : WebtoonMetadata).total_count.isSome ↔
        ({ title_id := 3, title_name := "Y", is_adult := false,
           total_count := some 0, page_size := some 0, total_pages := some 0 }
             : WebtoonMetadata).total_pages.isSome) :=
  c9_paging_fields_together 3 normalInfo emptyPages _ rfl

/-- Claim C10. Inside the content container, an `img` whose `src` attribute
is absent or empty contributes nothing: the returned `img_urls` is exactly
the non-empty `src` values in document order, and every entry is a non-empty
string. -/
theorem c10_img_src_filtering (ep : EpisodeInfo) (imgs : List (Option String)) :
    (get_episode_images ep (.status 200 (some imgs))).img_urls
        = imgs.filterMap
            (fun src => src.bind (fun s => if s = "" then none else some s)) ∧
      ∀ u ∈ (get_episode_images ep (.status 200 (some imgs))).img_urls,
        u ≠ "" := by
  have h : (get_episode_images ep (.status 200 (some imgs))).img_urls
      = collectImgSrcs imgs := rfl
  refine ⟨by rw [h, collectImgSrcs_eq_filterMap], ?_⟩
  rw [h, collectImgSrcs_eq_filterMap]
  intro u hu
  obtain ⟨src, _, hmap⟩ := List.mem_filterMap.mp hu
  cases src with
  | none => simp at hmap
  | some s =>
    simp only [Option.some_bind] at hmap
    by_cases hse : s = ""
    · rw [if_pos hse] at hmap
      exact absurd hmap (by simp)
    · rw [if_neg hse] at hmap
      injection hmap with hmap
      exact hmap ▸ hse

/-- Claim C10, witness at a concrete container with one good `src`, one
absent `src`, one empty `src`. -/
theorem c10_witness :
    (get_episode_images (unlockedEp 1)
        (.status 200 (some [some "a", none, some ""]))).img_urls
        = [some "a", none, some ""].filterMap
            (fun src => src.bind (fun s => if s = "" then none else some s)) ∧
      ∀ u ∈ (get_episode_images (unlockedEp 1)
        (.status 200 (some [some "a", none, some ""]))).img_urls, u ≠ "" :=
  c10_img_src_filtering (unlockedEp 1) [some "a", none, some ""]

/-- Claim C3. For a resolved page count `P ≥ 1`, `__get_all_episodes` builds
exactly `P` page requests, one per page number in `[1, P]`; on success the
output length equals the sum of the per-page episode counts and the output
is sorted ascending by `no`; and sorting makes the result order independent
of completion order: any permutation of the collected episodes sorts to a
sorted permutation of the same result. -/
theorem c3_fetch_all_episodes (pages : Nat → ListPageResponse)
    (md : WebtoonMetadata) (tp : Nat) (htp : md.total_pages = some tp)
    (_hP : 1 ≤ tp) :
    (taskPages tp).length = tp ∧
      (∀ q, q ∈ taskPages tp ↔ 1 ≤ q ∧ q ≤ tp) ∧
      (∀ l, get_all_episodes pages md = .ok l →
        l.length = ((taskPages tp).map
          (fun p => (pages p).payload.articleList.length)).sum ∧
        l.Pairwise (fun a b => a.no ≤ b.no)) ∧
      (∀ l₁ l₂ : List EpisodeInfo, l₁.Perm l₂ →
        (sortEpisodes l₁).Pairwise (fun a b => a.no ≤ b.no) ∧
        (sortEpisodes l₁).Perm (sortEpisodes l₂)) := by
  refine ⟨by simp [taskPages], ?_, ?_, ?_⟩
  · intro q
    simp only [taskPages, List.mem_range'_1]
    omega
  · intro l hok
    obtain ⟨responses, hg, hl⟩ := get_all_episodes_ok_elim htp hok
    obtain ⟨hmap, -⟩ := gatherPages_ok_elim hg
    subst hmap
    constructor
    · rw [hl, sortEpisodes_length, List.flatMap_map, List.length_flatMap]
      have hcomp : (List.length ∘
            fun p : Nat => (pages p).payload.articleList.map episodeOfArticle)
          = fun p : Nat => (pages p).payload.articleList.length := by
        funext p
        simp
      rw [hcomp]
    · rw [hl]
      exact sortEpisodes_pairwise _
  · intro l₁ l₂ hperm
    exact ⟨sortEpisodes_pairwise _,
      (sortEpisodes_perm l₁).trans (hperm.trans (sortEpisodes_perm l₂).symm)⟩

/-- Claim C3, witness at a concrete two-page fetch. -/
theorem c3_witness :
    (taskPages 2).length = 2 ∧
      (∀ q, q ∈ taskPages 2 ↔ 1 ≤ q ∧ q ≤ 2) ∧
      (∀ l, get_all_episodes pagesByNo twoPageMetadata = .ok l →
        l.length = ((taskPages 2).map
          (fun p => (pagesByNo p).payload.articleList.length)).sum ∧
        l.Pairwise (fun a b => a.no ≤ b.no)) ∧
      (∀ l₁ l₂ : List EpisodeInfo, l₁.Perm l₂ →
        (sortEpisodes l₁).Pairwise (fun a b => a.no ≤ b.no) ∧
        (sortEpisodes l₁).Perm (sortEpisodes l₂)) :=
  c3_fetch_all_episodes pagesByNo twoPageMetadata 2 rfl (by decide)

/-- Claim C5. `get_episode_images` never fails outward: a caught transport
exception, a non-success status, or a parse anomaly (absent content
container) each return the episode itself with `img_urls = []`; and the
batch collector's output is exactly the per-episode extraction mapped over
the input, so one episode's failing fetch cannot affect a sibling's
result. -/
theorem c5_extract_never_fails (ep : EpisodeInfo) (o : FetchOutcome)
    (oracle : EpisodeInfo → FetchOutcome) (episodes : List EpisodeInfo)
    (batch_size : Nat) (hbs : batch_size ≠ 0) :
    ((o = .exn ∨ (∃ code sect, o = .status code sect ∧ code ≠ 200) ∨
        o = .status 200 none) →
      get_episode_images ep o = { ep with img_urls := [] }) ∧
      get_episodes_with_images_batch
        (fun e => .ok (get_episode_images e (oracle e))) episodes batch_size
        = some (episodes.map (fun e => get_episode_images e (oracle e)),
                (episodeBatches batch_size episodes).length - 1) := by
  constructor
  · rintro (rfl | ⟨code, sect, rfl, hcode⟩ | rfl)
    · rfl
    · simp [get_episode_images, hcode]
    · rfl
  · unfold get_episodes_with_images_batch
    by_cases he : episodes = []
    · subst he
      simp [episodeBatches_nil]
    · rw [if_neg he, if_neg hbs]
      have hpair : batchLoop (fun e => Except.ok (get_episode_images e (oracle e)))
          batch_size episodes
          = (episodes.map (fun e => get_episode_images e (oracle e)),
             (episodeBatches batch_size episodes).length - 1) := by
        apply Prod.ext
        · exact batchLoop_fst _ batch_size hbs episodes
        · exact batchLoop_snd _ batch_size hbs episodes
      rw [hpair]

/-- Claim C5, witness: an exception-raising fetch for a single episode in a
batch of size 1. -/
theorem c5_witness :
    ((FetchOutcome.exn = FetchOutcome.exn ∨
        (∃ code sect, FetchOutcome.exn = FetchOutcome.status code sect ∧
          code ≠ 200) ∨
        FetchOutcome.exn = FetchOutcome.status 200 none) →
      get_episode_images (unlockedEp 1) FetchOutcome.exn
        = { unlockedEp 1 with img_urls := [] }) ∧
      get_episodes_with_images_batch
        (fun e => .ok (get_episode_images e ((fun _ => FetchOutcome.exn) e)))
        [unlockedEp 1] 1
        = some ([unlockedEp 1].map
            (fun e => get_episode_images e ((fun _ => FetchOutcome.exn) e)),
            (episodeBatches 1 [unlockedEp 1]).length - 1) :=
  c5_extract_never_fails (unlockedEp 1) FetchOutcome.exn
    (fun _ => FetchOutcome.exn) [unlockedEp 1] 1 (by decide)

/-- Claim C6. If any page request returns a non-success status, the whole
aggregation fails with the propagated per-page error and no episode list —
partial or otherwise — is produced. -/
theorem c6_page_failure_aborts (pages : Nat → ListPageResponse)
    (md : WebtoonMetadata) (tp : Nat) (htp : md.total_pages = some tp)
    (hfail : ∃ p ∈ taskPages tp, (pages p).status ≠ 200) :
    (∃ p ∈ taskPages tp, (pages p).status ≠ 200 ∧
        get_all_episodes pages md
          = .error (.pageRequestFailed p (pages p).status)) ∧
      ∀ l, get_all_episodes pages md ≠ .ok l := by
  obtain ⟨p, hp, hps, herr⟩ := gatherPages_error hfail
  have hmatch : get_all_episodes pages md
      = (match gatherPages pages (taskPages tp) with
        | .error e => (.error e : Except PyError (List EpisodeInfo))
        | .ok responses =>
          .ok (sortEpisodes
            (responses.flatMap (fun r => r.articleList.map episodeOfArticle)))) := by
    unfold get_all_episodes
    rw [htp]
  have hge : get_all_episodes pages md
      = .error (.pageRequestFailed p (pages p).status) := by
    rw [hmatch, herr]
  refine ⟨⟨p, hp, hps, hge⟩, ?_⟩
  intro l hcon
  rw [hge] at hcon
  exact absurd hcon (by simp)

/-- Claim C6, witness: a fetch whose pages all answer 500. -/
theorem c6_witness :
    (∃ p ∈ taskPages 2, (failingPages p).status ≠ 200 ∧
        get_all_episodes failingPages twoPageMetadata
          = .error (.pageRequestFailed p (failingPages p).status)) ∧
      ∀ l, get_all_episodes failingPages twoPageMetadata ≠ .ok l :=
  c6_page_failure_aborts failingPages twoPageMetadata 2 rfl
    ⟨1, by decide, by decide⟩

/-- Claim C7. The batch collector slices the input into consecutive chunks
of `batch_size` (all chunks full except possibly the last), produces exactly
one output entry per input in input order, and pauses after every chunk
except the last; for 12 episodes and `batch_size = 5` the chunk sizes are
5, 5, 2 with exactly 2 pauses. -/
theorem c7_batch_partition (run : EpisodeInfo → Except PyError EpisodeInfo)
    (episodes : List EpisodeInfo) (batch_size : Nat)
    (hne : episodes ≠ []) (hbs : 1 ≤ batch_size) :
    (episodeBatches batch_size episodes).flatten = episodes ∧
      (∀ c ∈ episodeBatches batch_size episodes,
        c ≠ [] ∧ c.length ≤ batch_size) ∧
      (∀ c ∈ (episodeBatches batch_size episodes).dropLast,
        c.length = batch_size) ∧
      get_episodes_with_images_batch run episodes batch_size
        = some (episodes.map (fun e => resolveTaskResult e (run e)),
                (episodeBatches batch_size episodes).length - 1) ∧
      (episodes.length = 12 → batch_size = 5 →
        (episodeBatches batch_size episodes).map List.length = [5, 5, 2] ∧
        (episodeBatches batch_size episodes).length - 1 = 2) := by
  have hbs' : batch_size ≠ 0 := by omega
  refine ⟨episodeBatches_flatten _ hbs' _, episodeBatches_mem _ hbs' _,
    episodeBatches_dropLast _ hbs' _, ?_, ?_⟩
  · unfold get_episodes_with_images_batch
    rw [if_neg hne, if_neg hbs']
    have hpair : batchLoop run batch_size episodes
        = (episodes.map (fun e => resolveTaskResult e (run e)),
           (episodeBatches batch_size episodes).length - 1) := by
      apply Prod.ext
      · exact batchLoop_fst run batch_size hbs' episodes
      · exact batchLoop_snd run batch_size hbs' episodes
    rw [hpair]
  · intro h12 h5
    subst h5
    have hb0 : batchLengths 5 0 = [] := by
      rw [batchLengths]
      simp
    have hb2 : batchLengths 5 2 = [2] := by
      rw [batchLengths_cons (by omega) (by omega)]
      norm_num [hb0]
    have hb7 : batchLengths 5 7 = [5, 2] := by
      rw [batchLengths_cons (by omega) (by omega)]
      norm_num [hb2]
    have hb12 : batchLengths 5 12 = [5, 5, 2] := by
      rw [batchLengths_cons (by omega) (by omega)]
      norm_num [hb7]
    have hml : (episodeBatches 5 episodes).map List.length = [5, 5, 2] := by
      rw [episodeBatches_map_length, h12, hb12]
    refine ⟨hml, ?_⟩
    have hlen : (episodeBatches 5 episodes).length = 3 := by
      have h := congrArg List.length hml
      simpa using h
    rw [hlen]

/-- Claim C7, witness: twelve episodes with `batch_size = 5` and a trivial
per-episode task. -/
theorem c7_witness :
    (episodeBatches 5 twelveEpisodes).flatten = twelveEpisodes ∧
      (∀ c ∈ episodeBatches 5 twelveEpisodes, c ≠ [] ∧ c.length ≤ 5) ∧
      (∀ c ∈ (episodeBatches 5 twelveEpisodes).dropLast, c.length = 5) ∧
      get_episodes_with_images_batch (fun e => .ok e) twelveEpisodes 5
        = some (twelveEpisodes.map
            (fun e => resolveTaskResult e ((fun e => .ok e) e)),
            (episodeBatches 5 twelveEpisodes).length - 1) ∧
      (twelveEpisodes.length = 12 → 5 = 5 →
        (episodeBatches 5 twelveEpisodes).map List.length = [5, 5, 2] ∧
        (episodeBatches 5 twelveEpisodes).length - 1 = 2) :=
  c7_batch_partition (fun e => .ok e) twelveEpisodes 5 (by decide) (by decide)

/-- Claim C8. Running the batch collector with `batchSize = 1` and with
`batchSize = len(episodes)` yields identical per-episode results — both are
the per-episode extraction mapped over the input; only the pacing (pause
count) differs. -/
theorem c8_batch_size_irrelevant_for_content
    (run : EpisodeInfo → Except PyError EpisodeInfo)
    (episodes : List EpisodeInfo) :
    Option.map Prod.fst (get_episodes_with_images_batch run episodes 1)
        = Option.map Prod.fst
            (get_episodes_with_images_batch run episodes episodes.length) ∧
      Option.map Prod.fst (get_episodes_with_images_batch run episodes 1)
        = some (episodes.map (fun e => resolveTaskResult e (run e))) := by
  by_cases he : episodes = []
  · subst he
    exact ⟨rfl, rfl⟩
  · have h1 : episodes.length ≠ 0 :=
      fun h => he (List.eq_nil_of_length_eq_zero h)
    have e1 : get_episodes_with_images_batch run episodes 1
        = some (batchLoop run 1 episodes) := by
      unfold get_episodes_with_images_batch
      rw [if_neg he, if_neg (by omega)]
    have e2 : get_episodes_with_images_batch run episodes episodes.length
        = some (batchLoop run episodes.length episodes) := by
      unfold get_episodes_with_images_batch
      rw [if_neg he, if_neg h1]
    rw [e1, e2]
    constructor
    · simp only [Option.map]
      rw [batchLoop_fst run 1 (by omega) episodes,
        batchLoop_fst run episodes.length h1 episodes]
    · simp only [Option.map]
      rw [batchLoop_fst run 1 (by omega) episodes]

end NWebtoon
